import Mathlib

/-!
Verification of the langchain-rag-chatbot backend: a shallow embedding of
`backend/orchestrator.py` and `backend/mcp_server.py` together with theorems
about the tool server, the RPC dispatch, the agent lifecycle, the session
memory store and the streaming producer/consumer loop.

External collaborators (SQLite, ChromaDB, Redis, the LLM, the HTTP stack) are
modelled as explicit parameters describing their observable behaviour; the
repository code itself is translated function by function.
-/

namespace RagChatbot

/-! ## Session memory (orchestrator.py, get_session_memory / save_session_memory)

Redis is modelled as a working key/value store from session id to the decoded
JSON list held at key `session:<id>`; `none` means the key is absent.  The 24h
expiry (`ex=86400`) and the degraded no-op paths taken when the client is
unavailable or raises are outside the store model: the claims below are about
the store when it is up, which is when reads and writes take effect. -/

/-- One session memory record: a role (`"User"` or `"AI"`) and its text. -/
structure MemoryRecord where
  role : String
  text : String
deriving DecidableEq

/-- The Redis keyspace restricted to session keys. -/
abbrev SessionStore := String → Option (List MemoryRecord)

/-- A store with no session keys at all. -/
def emptyStore : SessionStore := fun _ => none

/-- `get_session_memory(session_id)`: the decoded stored list, `[]` when the
key is absent. -/
def get_session_memory (store : SessionStore) (session_id : String) :
    List MemoryRecord :=
  match store session_id with
  | some mem => mem
  | none => []

/-- `save_session_memory(session_id, new_messages)`: read the current history,
extend it with the new messages, keep only the last 6 entries when the result
is longer than 6, and write the result back. -/
def save_session_memory (store : SessionStore) (session_id : String)
    (new_messages : List MemoryRecord) : SessionStore :=
  let current := get_session_memory store session_id ++ new_messages
  let length := current.length
  let truncated := if length > 6 then current.drop (length - 6) else current
  fun key => if key = session_id then some truncated else store key

/-- The suffix of the last (at most) 6 entries, the normal form of the
truncation in `save_session_memory`. -/
def lastSix (l : List MemoryRecord) : List MemoryRecord :=
  l.drop (l.length - 6)

theorem save_truncation_eq_lastSix (l : List MemoryRecord) :
    (if l.length > 6 then l.drop (l.length - 6) else l) = lastSix l := by
  unfold lastSix
  by_cases h : l.length > 6
  · simp [h]
  · have h6 : l.length - 6 = 0 := by omega
    simp [h, h6]

theorem get_after_save (store : SessionStore) (sid : String)
    (new : List MemoryRecord) :
    get_session_memory (save_session_memory store sid new) sid
      = lastSix (get_session_memory store sid ++ new) := by
  unfold save_session_memory
  rw [← save_truncation_eq_lastSix]
  simp [get_session_memory]

theorem lastSix_length (l : List MemoryRecord) :
    (lastSix l).length = min l.length 6 := by
  unfold lastSix
  rw [List.length_drop]
  omega

/-- Truncating, appending, then truncating again loses nothing beyond what a
single final truncation loses. -/
theorem lastSix_append_lastSix (x y : List MemoryRecord) :
    lastSix (lastSix x ++ y) = lastSix (x ++ y) := by
  unfold lastSix
  rw [List.drop_append_eq_append_drop, List.drop_append_eq_append_drop,
    List.drop_drop]
  congr 1
  · congr 1
    simp only [List.length_append, List.length_drop]
    omega
  · congr 1
    simp only [List.length_append, List.length_drop]
    omega

/-- N sequential conversation turns: each call of the endpoint appends the pair
`[{role: User, text: u}, {role: AI, text: a}]` via `save_session_memory`. -/
def appendUserAiPairs (store : SessionStore) (sid : String) :
    List (String × String) → SessionStore
  | [] => store
  | (u, a) :: ps =>
      appendUserAiPairs
        (save_session_memory store sid [⟨"User", u⟩, ⟨"AI", a⟩]) sid ps

/-- The full untruncated transcript of the same turns. -/
def flatRecords : List (String × String) → List MemoryRecord
  | [] => []
  | (u, a) :: ps => ⟨"User", u⟩ :: ⟨"AI", a⟩ :: flatRecords ps

theorem flatRecords_length (ps : List (String × String)) :
    (flatRecords ps).length = 2 * ps.length := by
  induction ps with
  | nil => rfl
  | cons p ps ih =>
      obtain ⟨u, a⟩ := p
      simp [flatRecords, ih]
      omega

theorem lastSix_of_short (l : List MemoryRecord) (h : l.length ≤ 6) :
    lastSix l = l := by
  unfold lastSix
  have h0 : l.length - 6 = 0 := by omega
  simp [h0]

theorem get_appendUserAiPairs (ps : List (String × String)) :
    ∀ (store : SessionStore) (sid : String),
      (get_session_memory store sid).length ≤ 6 →
      get_session_memory (appendUserAiPairs store sid ps) sid
        = lastSix (get_session_memory store sid ++ flatRecords ps) := by
  induction ps with
  | nil =>
      intro store sid h
      simp [appendUserAiPairs, flatRecords, lastSix_of_short _ h]
  | cons p ps ih =>
      obtain ⟨u, a⟩ := p
      intro store sid h
      have hsave := get_after_save store sid [⟨"User", u⟩, ⟨"AI", a⟩]
      have hlen : (get_session_memory
          (save_session_memory store sid [⟨"User", u⟩, ⟨"AI", a⟩]) sid).length
            ≤ 6 := by
        rw [hsave, lastSix_length]
        omega
      simp only [appendUserAiPairs]
      rw [ih _ sid hlen, hsave, lastSix_append_lastSix, List.append_assoc]
      simp only [flatRecords, List.cons_append, List.nil_append]

/-! ## Tool server (mcp_server.py)

SQLite and ChromaDB are external collaborators: each is modelled as a
parameter giving the observable outcome of one call, with `Except String`
standing for a raised Python exception carrying its message string. -/

/-- The sqlite3 cursor after `cursor.execute(query)` has run: `description` is
the column list of the result set (`none` when the statement yields no result
set, as for INSERT/UPDATE/CREATE/DROP) and `fetched` the rows of
`cursor.fetchall()`, each a list of cell values. -/
structure CursorState where
  description : Option (List String)
  fetched : List (List String)
deriving DecidableEq

/-- The database as the tool server sees it: the outcome of executing one
statement (an exception message, or the resulting cursor state). -/
abbrev DbExec := String → Except String CursorState

/-- The message of the Python `TypeError` raised by iterating
`cursor.description` when it is `None` (modelled text). -/
def noneNotIterableMsg : String := "TypeError: NoneType object is not iterable"

/-- One column of `PRAGMA table_info`: the raw tuple fields the code reads
(`col[1]` name, `col[2]` type, `col[3]` notnull flag, `col[5]` pk rank). -/
structure PragmaRow where
  name : String
  type : String
  notnull : Nat
  pk : Nat
deriving DecidableEq

/-- The column record `get_database_schema` builds from one pragma row:
`nullable = not col[3]`, `primary_key = bool(col[5])`. -/
structure ColumnInfo where
  name : String
  type : String
  nullable : Bool
  primary_key : Bool
deriving DecidableEq

def columnInfoOfPragma (r : PragmaRow) : ColumnInfo :=
  { name := r.name, type := r.type, nullable := r.notnull == 0
    primary_key := r.pk != 0 }

/-- One retrieved document as returned by the search tools. -/
structure DocEntry where
  content : String
  metadata : List (String × String)
  similarity_score : Rat
deriving DecidableEq

/-- The dictionary ChromaDB returns from `collection.query`: per-query lists
of documents, metadatas and distances (the code reads index 0 of each). -/
structure ChromaResults where
  documents : List (List String)
  metadatas : List (List (List (String × String)))
  distances : List (List Rat)
deriving DecidableEq

/-- A ChromaDB collection handle, as its observable query behaviour:
arguments (query text, n_results), outcome the results or an exception. -/
abbrev Collection := String → Nat → Except String ChromaResults

/-- The unified shape every tool handler returns: `success: true` with a
tool-specific payload, or `success: false` with an error string. -/
inductive ToolResult where
  | sqlOk (columns : List String) (rows : List (List (String × String)))
      (row_count : Nat)
  | schemaOk (schema : List (String × List ColumnInfo))
  | searchOk (documents : List DocEntry) (query : String)
  | fail (error : String)
deriving DecidableEq

/-- The `success` field of a tool result dictionary. -/
def ToolResult.success : ToolResult → Bool
  | .fail _ => false
  | _ => true

/-- `execute_sql(query)`: run the statement; read the column names off
`cursor.description` (iterating `None` raises, and the bare `except` folds
the exception into a failure result); zip each fetched row with the column
names; report the row count. -/
def execute_sql (dbExec : DbExec) (query : String) : ToolResult :=
  match dbExec query with
  | .error e => .fail e
  | .ok cur =>
      match cur.description with
      | none => .fail noneNotIterableMsg
      | some columns =>
          let rows := cur.fetched.map fun r => columns.zip r
          .sqlOk columns rows rows.length

/-- `get_database_schema()`: list the tables, run `PRAGMA table_info` per
table, build the per-table column records; any exception along the way is
folded into a failure result. -/
def get_database_schema (dbTables : Except String (List String))
    (dbPragma : String → Except String (List PragmaRow)) : ToolResult :=
  match dbTables with
  | .error e => .fail e
  | .ok tables =>
      match tables.mapM
          (fun t => (dbPragma t).map
            fun cols => (t, cols.map columnInfoOfPragma)) with
      | .error e => .fail e
      | .ok schema => .schemaOk schema

/-- The message of the Python `IndexError` from indexing past a list end. -/
def indexErrorMsg : String := "IndexError: list index out of range"

/-- Python list indexing, raising `IndexError` when out of range. -/
def pyIndex {α : Type} (l : List α) (i : Nat) : Except String α :=
  match l.get? i with
  | some x => .ok x
  | none => .error indexErrorMsg

/-- The document-building loop shared by both search tools: when
`results[documents]` is nonempty, enumerate its first entry and build one
entry per document, reading `metadatas[0][i]` (when metadatas is nonempty)
and `distances[0][i]`, with `similarity_score = 1 - distance`. -/
def buildDocs (results : ChromaResults) : Except String (List DocEntry) :=
  match results.documents with
  | [] => .ok []
  | docs0 :: _ =>
      (List.range docs0.length).mapM fun i => do
        let doc ← pyIndex docs0 i
        let md ←
          if results.metadatas = [] then pure []
          else do
            let m0 ← pyIndex results.metadatas 0
            pyIndex m0 i
        let d0 ← pyIndex results.distances 0
        let dist ← pyIndex d0 i
        pure { content := doc, metadata := md
               similarity_score := 1 - dist : DocEntry }

/-- `search_support_docs(query, top_k)`: fail fast when the collection failed
to initialise; otherwise query it and build the document list, folding any
exception into a failure result. -/
def search_support_docs (support_collection : Option Collection)
    (query : String) (top_k : Nat) : ToolResult :=
  match support_collection with
  | none => .fail "Support docs collection not initialized"
  | some coll =>
      match coll query top_k >>= buildDocs with
      | .error e => .fail e
      | .ok docs => .searchOk docs query

/-- `search_release_notes(query, top_k)`: same logic over the release-notes
collection, with its own fixed not-initialised message. -/
def search_release_notes (release_collection : Option Collection)
    (query : String) (top_k : Nat) : ToolResult :=
  match release_collection with
  | none => .fail "Release notes collection not initialized"
  | some coll =>
      match coll query top_k >>= buildDocs with
      | .error e => .fail e
      | .ok docs => .searchOk docs query

/-! ## Tool registry and JSON-RPC dispatch (mcp_server.py, TOOLS / mcp_handler) -/

/-- One advertised tool descriptor: name, LLM-facing description, and the
required argument names of its input schema. -/
structure ToolDescriptor where
  name : String
  description : String
  required : List String
deriving DecidableEq

/-- The advertised TOOLS registry. -/
def TOOLS : List ToolDescriptor := [
  { name := "execute_sql"
    description := "Execute a SQL query on the database. Use this for data retrieval. MUST CALL get_database_schema FIRST to understand the tables since they change per tenant! The query property must be the exact raw SQL SELECT query to run."
    required := ["query"] },
  { name := "get_database_schema"
    description := "Get the database schema (tables, columns, types). Use this to understand what data is available before writing SQL queries."
    required := [] },
  { name := "search_support_docs"
    description := "Search support documentation for troubleshooting and error resolution. Use this when users ask about errors, issues, or how to fix problems."
    required := ["query"] },
  { name := "search_release_notes"
    description := "Search release notes for version information, features, bug fixes, and deprecations. Use this when users ask about releases, versions, or what's new."
    required := ["query"] }]

/-- The keys of the TOOL_HANDLERS mapping. -/
def toolHandlerNames : List String :=
  ["execute_sql", "get_database_schema", "search_support_docs",
   "search_release_notes"]

/-- The per-process state the handlers read: the database connection and the
two (possibly uninitialised) ChromaDB collections. -/
structure ServerEnv where
  dbExec : DbExec
  dbTables : Except String (List String)
  dbPragma : String → Except String (List PragmaRow)
  support_collection : Option Collection
  release_collection : Option Collection

/-- The `arguments` object of a tools/call request: the argument names the
handlers accept, each absent when the caller did not pass it (the handler
parameter defaults, `query=""` and `top_k=3`, then apply). -/
structure ToolArgs where
  query : Option String := none
  top_k : Option Nat := none
deriving DecidableEq

/-- `TOOL_HANDLERS[tool_name](**tool_args)`: `none` exactly when the name is
not a handler key. -/
def dispatchTool (env : ServerEnv) (name : String) (args : ToolArgs) :
    Option ToolResult :=
  if name = "execute_sql" then
    some (execute_sql env.dbExec (args.query.getD ""))
  else if name = "get_database_schema" then
    some (get_database_schema env.dbTables env.dbPragma)
  else if name = "search_support_docs" then
    some (search_support_docs env.support_collection (args.query.getD "")
      (args.top_k.getD 3))
  else if name = "search_release_notes" then
    some (search_release_notes env.release_collection (args.query.getD "")
      (args.top_k.getD 3))
  else none

/-- A decoded JSON-RPC request body as `mcp_handler` reads it: each field is
`none` when absent from the posted JSON. -/
structure McpRequestData where
  jsonrpc : Option String
  method : Option String
  name : Option String
  arguments : ToolArgs
  id : Option Nat
deriving DecidableEq

/-- The `result` member of a JSON-RPC success response. -/
inductive RpcPayload where
  | tools (ts : List ToolDescriptor)
  | toolResult (r : ToolResult)
deriving DecidableEq

/-- A JSON-RPC response body: a result, or a protocol error with code and
message (distinct from a tool result carrying success:false). -/
inductive RpcBody where
  | result (payload : RpcPayload) (id : Option Nat)
  | rpcError (code : Int) (message : String) (id : Option Nat)
deriving DecidableEq

/-- A response of the /mcp route: body plus HTTP status. -/
structure HttpResponse where
  body : RpcBody
  status : Nat
deriving DecidableEq

/-- Python f-string rendering of a possibly absent string. -/
def pyStrOpt : Option String → String
  | some s => s
  | none => "None"

/-- The /mcp route: validate the jsonrpc version, serve tools/list from the
registry, dispatch tools/call through TOOL_HANDLERS (unknown tool: protocol
error -32601, HTTP 404), and reject unknown methods with -32601. -/
def mcp_handler (env : ServerEnv) (data : McpRequestData) : HttpResponse :=
  if data.jsonrpc ≠ some "2.0" then
    ⟨.rpcError (-32600) "Invalid Request: missing jsonrpc version" data.id,
      400⟩
  else if data.method = some "tools/list" then
    ⟨.result (.tools TOOLS) data.id, 200⟩
  else if data.method = some "tools/call" then
    match dispatchTool env (pyStrOpt data.name) data.arguments with
    | some r => ⟨.result (.toolResult r) data.id, 200⟩
    | none =>
        ⟨.rpcError (-32601) ("Tool not found: " ++ pyStrOpt data.name)
          data.id, 404⟩
  else
    ⟨.rpcError (-32601) ("Method not found: " ++ pyStrOpt data.method)
      data.id, 404⟩

theorem advertised_names_eq_handler_keys :
    TOOLS.map ToolDescriptor.name = toolHandlerNames := rfl

theorem dispatchTool_eq_none (env : ServerEnv) (args : ToolArgs) (n : String)
    (h : n ∉ toolHandlerNames) : dispatchTool env n args = none := by
  simp only [toolHandlerNames, List.mem_cons, List.not_mem_nil, or_false,
    not_or] at h
  obtain ⟨h1, h2, h3, h4⟩ := h
  simp [dispatchTool, h1, h2, h3, h4]

theorem dispatchTool_isSome (env : ServerEnv) (args : ToolArgs) (n : String)
    (h : n ∈ toolHandlerNames) : (dispatchTool env n args).isSome := by
  simp only [toolHandlerNames, List.mem_cons, List.not_mem_nil, or_false]
    at h
  rcases h with h | h | h | h <;> subst h <;> simp [dispatchTool]

/-- A server environment with an empty database and uninitialised
collections, for concrete instantiations. -/
def sampleEnv : ServerEnv :=
  { dbExec := fun _ => .error "no such table: tasks"
    dbTables := .ok []
    dbPragma := fun _ => .ok []
    support_collection := none
    release_collection := none }

/-! ## Claims C1, C3, C10 (tool server), C4, C8 (session memory) -/

/-- Claim C1: every tool handler catches its internal exceptions — bad SQL,
missing collection, embedding-provider failure — and folds them into a
success:false result whose error string is the exception message (non-empty
when the message is), or a fixed non-empty not-initialised message; no
handler call with a known name leaves the RPC layer without a tool result. -/
theorem C1_handlers_fold_internal_errors :
    (∀ (dbExec : DbExec) (q e : String), dbExec q = .error e → e ≠ "" →
      ∃ msg, execute_sql dbExec q = .fail msg ∧ msg ≠ "")
    ∧ (∀ (dbTables : Except String (List String))
        (dbPragma : String → Except String (List PragmaRow)) (e : String),
        dbTables = .error e → e ≠ "" →
        ∃ msg, get_database_schema dbTables dbPragma = .fail msg ∧ msg ≠ "")
    ∧ (∀ (tables : List String)
        (dbPragma : String → Except String (List PragmaRow)) (e : String),
        tables.mapM (fun t => (dbPragma t).map
            fun cols => (t, cols.map columnInfoOfPragma)) = .error e →
        e ≠ "" →
        ∃ msg, get_database_schema (.ok tables) dbPragma = .fail msg
          ∧ msg ≠ "")
    ∧ (∀ (coll : Collection) (q : String) (k : Nat) (e : String),
        coll q k >>= buildDocs = .error e → e ≠ "" →
        ∃ msg, search_support_docs (some coll) q k = .fail msg ∧ msg ≠ "")
    ∧ (∀ (q : String) (k : Nat),
        ∃ msg, search_support_docs none q k = .fail msg ∧ msg ≠ "")
    ∧ (∀ (coll : Collection) (q : String) (k : Nat) (e : String),
        coll q k >>= buildDocs = .error e → e ≠ "" →
        ∃ msg, search_release_notes (some coll) q k = .fail msg ∧ msg ≠ "")
    ∧ (∀ (q : String) (k : Nat),
        ∃ msg, search_release_notes none q k = .fail msg ∧ msg ≠ "")
    ∧ (∀ (env : ServerEnv) (args : ToolArgs) (n : String),
        n ∈ toolHandlerNames → (dispatchTool env n args).isSome) := by
  refine ⟨?_, ?_, ?_, ?_, ?_, ?_, ?_, dispatchTool_isSome⟩
  · intro dbExec q e he hne
    exact ⟨e, by simp [execute_sql, he], hne⟩
  · intro dbTables dbPragma e he hne
    exact ⟨e, by simp [get_database_schema, he], hne⟩
  · intro tables dbPragma e he hne
    refine ⟨e, ?_, hne⟩
    simp only [get_database_schema]
    rw [he]
  · intro coll q k e he hne
    refine ⟨e, ?_, hne⟩
    simp only [search_support_docs, he]
  · intro q k
    exact ⟨"Support docs collection not initialized", rfl, by decide⟩
  · intro coll q k e he hne
    refine ⟨e, ?_, hne⟩
    simp only [search_release_notes, he]
  · intro q k
    exact ⟨"Release notes collection not initialized", rfl, by decide⟩

/-- Concrete instantiation of C1: a failing database connection and an
uninitialised support collection both yield non-empty failure results. -/
theorem C1_handlers_fold_internal_errors_witness :
    ∃ msg, execute_sql sampleEnv.dbExec "SELECT * FROM tasks" = .fail msg
      ∧ msg ≠ "" :=
  C1_handlers_fold_internal_errors.1 sampleEnv.dbExec "SELECT * FROM tasks"
    "no such table: tasks" rfl (by decide)

/-- Claim C3: a tools/call naming a tool outside the advertised set yields
the fixed protocol error (code -32601, HTTP 404) with a message, and never a
tool-shaped result. -/
theorem C3_unknown_tool_is_protocol_error (env : ServerEnv)
    (data : McpRequestData) (n : String)
    (hrpc : data.jsonrpc = some "2.0")
    (hm : data.method = some "tools/call")
    (hn : data.name = some n)
    (hout : n ∉ TOOLS.map ToolDescriptor.name) :
    mcp_handler env data
        = ⟨.rpcError (-32601) ("Tool not found: " ++ n) data.id, 404⟩
      ∧ ∀ r i s, mcp_handler env data ≠ ⟨.result (.toolResult r) i, s⟩ := by
  rw [advertised_names_eq_handler_keys] at hout
  have hd : dispatchTool env (pyStrOpt data.name) data.arguments = none := by
    rw [hn]
    exact dispatchTool_eq_none env data.arguments n hout
  have hmain : mcp_handler env data
      = ⟨.rpcError (-32601) ("Tool not found: " ++ n) data.id, 404⟩ := by
    unfold mcp_handler
    rw [hrpc, hm, hd, hn]
    simp [pyStrOpt]
  refine ⟨hmain, fun r i s => ?_⟩
  rw [hmain]
  simp

/-- Concrete instantiation of C3: calling the unadvertised name
"drop_all_tables" on a concrete server yields the protocol error. -/
theorem C3_unknown_tool_is_protocol_error_witness :
    mcp_handler sampleEnv
        ⟨some "2.0", some "tools/call", some "drop_all_tables", {}, some 1⟩
      = ⟨.rpcError (-32601) ("Tool not found: " ++ "drop_all_tables")
          (some 1), 404⟩ :=
  (C3_unknown_tool_is_protocol_error sampleEnv
    ⟨some "2.0", some "tools/call", some "drop_all_tables", {}, some 1⟩
    "drop_all_tables" rfl rfl rfl (by decide)).1

/-- Claim C10: when a statement executes but yields no result set
(`cursor.description` is None, as for INSERT/UPDATE/CREATE/DROP),
`execute_sql` returns a success:false error result even though the statement
ran; and a success:true result occurs only when the cursor carried a result
set whose columns are the ones reported. -/
theorem C10_no_result_set_reports_failure (dbExec : DbExec) (q : String) :
    (∀ cur : CursorState, dbExec q = .ok cur → cur.description = none →
      execute_sql dbExec q = .fail noneNotIterableMsg)
    ∧ (∀ cols rows n, execute_sql dbExec q = .sqlOk cols rows n →
      ∃ cur : CursorState, dbExec q = .ok cur
        ∧ cur.description = some cols) := by
  constructor
  · intro cur hok hdesc
    simp [execute_sql, hok, hdesc]
  · intro cols rows n h
    cases hq : dbExec q with
    | error e => simp [execute_sql, hq] at h
    | ok cur =>
        obtain ⟨desc, fetched⟩ := cur
        cases desc with
        | none => simp [execute_sql, hq] at h
        | some cols1 =>
            simp only [execute_sql, hq, ToolResult.sqlOk.injEq] at h
            exact ⟨⟨some cols1, fetched⟩, rfl, by rw [h.1]⟩

/-- Concrete instantiation of C10: an INSERT executes (one row written, no
result set) and `execute_sql` still reports failure. -/
theorem C10_no_result_set_reports_failure_witness :
    execute_sql (fun _ => .ok ⟨none, []⟩)
        "INSERT INTO tasks VALUES (1)"
      = .fail noneNotIterableMsg :=
  (C10_no_result_set_reports_failure (fun _ => .ok ⟨none, []⟩)
      "INSERT INTO tasks VALUES (1)").1 ⟨none, []⟩ rfl rfl

/-- Claim C8: after any write to session memory completes, the stored history
for that session holds at most 6 records. -/
theorem C8_session_memory_never_exceeds_six (store : SessionStore)
    (session_id : String) (new_messages : List MemoryRecord) :
    (get_session_memory (save_session_memory store session_id new_messages)
      session_id).length ≤ 6 := by
  rw [get_after_save, lastSix_length]
  omega

/-- Claim C4: starting from a session with no stored history, after N
sequential append calls each adding one User record then one AI record, a get
returns exactly min(2N, 6) records, and they are the final segment of the
full transcript: the most recently appended records in original order. -/
theorem C4_session_memory_window (sid : String)
    (turns : List (String × String)) :
    (get_session_memory (appendUserAiPairs emptyStore sid turns) sid).length
        = min (2 * turns.length) 6
      ∧ get_session_memory (appendUserAiPairs emptyStore sid turns) sid
        = (flatRecords turns).drop
            (2 * turns.length - min (2 * turns.length) 6) := by
  have hempty : get_session_memory emptyStore sid = [] := rfl
  have h := get_appendUserAiPairs turns emptyStore sid
    (by rw [hempty]; simp)
  rw [hempty] at h
  simp only [List.nil_append] at h
  refine ⟨?_, ?_⟩
  · rw [h, lastSix_length, flatRecords_length]
  · rw [h]
    unfold lastSix
    rw [flatRecords_length]
    congr 1
    omega

/-! ## RPC transport and tool discovery (orchestrator.py) -/

/-- The arguments value handed to `call_mcp_tool` by a discovered tool
handle: a structured object decoded from JSON, or the fallback wrapping of
the raw string as a single query field.  `J` is the type of decoded JSON
objects. -/
inductive ToolArguments (J : Type) where
  | parsed (obj : J)
  | query (raw : String)
deriving DecidableEq

/-- The inner `_func` produced by `make_tool_func(name)` inside
`discover_mcp_tools`: take the single free-form argument string the reasoning
loop passes; when its stripped form starts with a brace try `json.loads`
(whose failure the bare `except` turns into the fallback), otherwise wrap the
raw string as a query field; then delegate to `call_mcp_tool` with the bound
url and tool name.  `jsonLoads` models `json.loads` (`none` when it raises)
and `call` models the transport call; `R` is its result type. -/
def make_tool_func {J R : Type} (jsonLoads : String → Option J)
    (call : String → String → ToolArguments J → R)
    (mcp_url : String) (name : String) : String → R :=
  fun arguments_str =>
    let args : ToolArguments J :=
      if arguments_str.trim.startsWith "\x7b" then
        match jsonLoads arguments_str with
        | some parsed => .parsed parsed
        | none => .query arguments_str
      else .query arguments_str
    call mcp_url name args

/-- Modelled from the spec: the tagged-variant resolver of section 9,
best-effort parse with fallback, to be compared with the inline branch of
`make_tool_func`. -/
def resolveArguments {J : Type} (jsonLoads : String → Option J)
    (arguments_str : String) : ToolArguments J :=
  if arguments_str.trim.startsWith "\x7b" then
    match jsonLoads arguments_str with
    | some obj => .parsed obj
    | none => .query arguments_str
  else .query arguments_str

/-- A discovered LangChain tool handle: name, description and the invocation
function built by `make_tool_func`. -/
structure LCTool (R : Type) where
  name : String
  description : String
  func : String → R

/-- `discover_mcp_tools(mcp_url)`: ask the server for tools/list (`listTools`
models the POST plus response decoding; an exception is any transport or
decode failure) and build one handle per advertised descriptor, binding the
tool name into the closure; on any failure return the empty list. -/
def discover_mcp_tools {J R : Type} (jsonLoads : String → Option J)
    (call : String → String → ToolArguments J → R)
    (listTools : String → Except String (List ToolDescriptor))
    (mcp_url : String) : List (LCTool R) :=
  match listTools mcp_url with
  | .error _ => []
  | .ok ts =>
      ts.map fun t =>
        { name := t.name, description := t.description
          func := make_tool_func jsonLoads call mcp_url t.name }

/-! ## Agent lifecycle (orchestrator.py, get_or_create_agent) -/

/-- The reasoning agent built by `initialize_agent`, with the fixed
construction parameters used by the orchestrator. -/
structure Agent (R : Type) where
  tools : List (LCTool R)
  max_iterations : Nat
  handle_parsing_errors : Bool
  return_intermediate_steps : Bool

/-- The process-wide AGENT_CACHE mapping, keyed by tenant id. -/
abbrev AgentCache (R : Type) := String → Option (Agent R)

/-- The cache at process start. -/
def emptyAgentCache {R : Type} : AgentCache R := fun _ => none

/-- `get_or_create_agent(tenant_id, mcp_url, callbacks)`: return the cached
agent when present; otherwise discover the tenant's tools, build the agent
(iteration cap 10, parse-error tolerant, intermediate steps returned), and
insert it into the cache only when `not callbacks` holds (true for both the
default `None` and an empty list).  The result carries the agent, the cache
after the call, and whether discovery ran during the call. -/
def get_or_create_agent {R C : Type}
    (discover : String → List (LCTool R))
    (cache : AgentCache R) (tenant_id mcp_url : String)
    (callbacks : Option (List C)) :
    Agent R × AgentCache R × Bool :=
  match cache tenant_id with
  | some agent => (agent, cache, false)
  | none =>
      let tools := discover mcp_url
      let agent : Agent R :=
        { tools := tools, max_iterations := 10
          handle_parsing_errors := true, return_intermediate_steps := true }
      if (callbacks.getD []).isEmpty then
        (agent, fun t => if t = tenant_id then some agent else cache t, true)
      else (agent, cache, true)

/-! ## Streaming producer and consumer (orchestrator.py, chat / generate) -/

/-- An event put on the SSE queue for the client. -/
inductive StreamEvent where
  | thought (tool : String) (tool_input : String) (text : String)
  | observation (output : String)
  | final (output : String)
  | error (message : String)
deriving DecidableEq

/-- What the per-request StreamingCallbackHandler can enqueue during
`agent.invoke`: one thought per reasoning step (`on_agent_action`), one
observation per finished tool call (`on_tool_end`).  It has no terminal
constructor: the handler never emits final or error events. -/
inductive CallbackEvent where
  | thought (tool : String) (tool_input : String) (text : String)
  | observation (output : String)
deriving DecidableEq

def CallbackEvent.toStream : CallbackEvent → StreamEvent
  | .thought t i x => .thought t i x
  | .observation o => .observation o

/-- The two terminal event kinds of the stream contract. -/
def StreamEvent.isTerminal : StreamEvent → Bool
  | .final _ => true
  | .error _ => true
  | _ => false

/-- The producer thread `run_agent` inside `generate()`, as the queue
contents it leaves behind and the session store after it ran.
`agent.invoke` emits the handler events and then either returns a result
dictionary (its output field is the final answer) or raises with a message.
The try body enqueues the final event and then saves the (query, answer)
pair to session memory; the except arm enqueues the error event; the finally
arm always enqueues the sentinel `none` afterwards, on both paths. -/
def run_agent (store : SessionStore) (session_id user_query : String)
    (handlerEvents : List CallbackEvent)
    (outcome : Except String String) :
    List (Option StreamEvent) × SessionStore :=
  match outcome with
  | .ok final_answer =>
      ((handlerEvents.map fun e => some e.toStream)
          ++ [some (.final final_answer), none],
        save_session_memory store session_id
          [⟨"User", user_query⟩, ⟨"AI", final_answer⟩])
  | .error e =>
      ((handlerEvents.map fun e => some e.toStream)
          ++ [some (.error e), none],
        store)

/-- The consumer loop of `generate()`: dequeue in FIFO order, forward each
event, stop at the sentinel.  `some events` is the forwarded stream;
`none` models the loop blocking forever on `q.get()` because no sentinel
was ever enqueued. -/
def consumeLoop : List (Option StreamEvent) → Option (List StreamEvent)
  | [] => none
  | none :: _ => some []
  | some e :: rest => (consumeLoop rest).map fun l => e :: l

theorem consumeLoop_sentinel (xs : List StreamEvent)
    (rest : List (Option StreamEvent)) :
    consumeLoop (xs.map some ++ none :: rest) = some xs := by
  induction xs with
  | nil => rfl
  | cons x xs ih => simp [consumeLoop, ih]

/-! ## The /chat route (orchestrator.py, chat) -/

/-- The tenant routing table TENANT_MCP_SERVERS. -/
abbrev TenantServers := String → Option String

/-- The fallback mapping used when no TENANT_*_MCP_URL variables exist. -/
def defaultTenantServers : TenantServers := fun t =>
  if t = "tenant_a" then some "http://localhost:3001/mcp"
  else if t = "tenant_b" then some "http://localhost:3002/mcp"
  else none

/-- The externally visible work the /chat route can trigger after routing. -/
inductive ChatEffect where
  | toolDiscovery (mcp_url : String)
  | agentConstruction (tenant_id : String)
  | llmCall
deriving DecidableEq

/-- A decoded /chat request body; `none` for each absent field. -/
structure ChatRequest where
  query : Option String
  tenant_id : Option String
  session_id : Option String
deriving DecidableEq

/-- A /chat response: the 400 JSON error, or the SSE event stream. -/
inductive ChatResponse where
  | clientError (status : Nat) (response : String)
  | eventStream (events : List StreamEvent)
deriving DecidableEq

/-- The /chat route (OPTIONS preflight aside): apply the request defaults,
resolve the tenant against the routing table, and either return the 400
error — before any further work — or hand over to `generate()` and the
reasoning loop, abstracted as `runConversation` from (tenant, url, session,
query) to the effects it performs and the events it streams. -/
def chat (servers : TenantServers)
    (runConversation : String → String → String → String →
      List ChatEffect × List StreamEvent)
    (data : ChatRequest) : ChatResponse × List ChatEffect :=
  let user_query := data.query.getD ""
  let tenant_id := data.tenant_id.getD "tenant_a"
  let session_id := data.session_id.getD "default_user_session"
  match servers tenant_id with
  | none =>
      (.clientError 400 ("Error: Unknown tenant '" ++ tenant_id ++ "'."), [])
  | some mcp_url =>
      let r := runConversation tenant_id mcp_url session_id user_query
      (.eventStream r.2, r.1)

/-! ## Claims C2, C5, C6, C7, C9 -/

/-- Claim C2: for every conversation the producer enqueues exactly one
terminal event — final with the answer on success, error with the message if
the loop raised — after the handler events (which are never terminal), and
always enqueues the sentinel last, on the failure path too; hence the FIFO
consumer never hangs: it terminates, forwarding the events up to the
sentinel. -/
theorem C2_producer_sentinel_consumer_terminates (store : SessionStore)
    (session_id user_query : String) (handlerEvents : List CallbackEvent)
    (outcome : Except String String) :
    ∃ term : StreamEvent,
      (run_agent store session_id user_query handlerEvents outcome).1
          = (handlerEvents.map fun e => some e.toStream)
              ++ [some term, none]
        ∧ term.isTerminal = true
        ∧ (∀ a, outcome = .ok a → term = .final a)
        ∧ (∀ e, outcome = .error e → term = .error e)
        ∧ (∀ c ∈ handlerEvents, c.toStream.isTerminal = false)
        ∧ consumeLoop
            (run_agent store session_id user_query handlerEvents outcome).1
            = some (handlerEvents.map CallbackEvent.toStream ++ [term]) := by
  have hnt : ∀ c : CallbackEvent, c.toStream.isTerminal = false := by
    intro c
    cases c <;> rfl
  have hc : ∀ term : StreamEvent,
      consumeLoop ((handlerEvents.map fun e => some e.toStream)
          ++ [some term, none])
        = some (handlerEvents.map CallbackEvent.toStream ++ [term]) := by
    intro term
    have := consumeLoop_sentinel
      (handlerEvents.map CallbackEvent.toStream ++ [term]) []
    simpa [List.map_append] using this
  cases outcome with
  | ok a =>
      refine ⟨.final a, rfl, rfl, by simp, by simp, fun c _ => hnt c, ?_⟩
      exact hc (.final a)
  | error e =>
      refine ⟨.error e, rfl, rfl, by simp, ?_, fun c _ => hnt c, ?_⟩
      · intro e1 he
        cases he
        rfl
      · exact hc (.error e)

/-- Concrete instantiation of C2, on the failure path: the loop raised after
one thought, and the consumer still terminates with the error event. -/
theorem C2_producer_sentinel_consumer_terminates_witness :
    ∃ term : StreamEvent,
      (run_agent emptyStore "default_user_session" "list all projects"
            [CallbackEvent.thought "execute_sql" "SELECT 1" "try it"]
            (.error "LLM quota exceeded")).1
          = ([CallbackEvent.thought "execute_sql" "SELECT 1"
              "try it"].map fun e => some e.toStream)
              ++ [some term, none]
        ∧ term.isTerminal = true
        ∧ (∀ a, (Except.error "LLM quota exceeded" : Except String String)
            = .ok a → term = .final a)
        ∧ (∀ e, (Except.error "LLM quota exceeded" : Except String String)
            = .error e → term = .error e)
        ∧ (∀ c ∈ [CallbackEvent.thought "execute_sql" "SELECT 1" "try it"],
            c.toStream.isTerminal = false)
        ∧ consumeLoop
            (run_agent emptyStore "default_user_session" "list all projects"
              [CallbackEvent.thought "execute_sql" "SELECT 1" "try it"]
              (.error "LLM quota exceeded")).1
            = some ([CallbackEvent.thought "execute_sql" "SELECT 1"
                "try it"].map CallbackEvent.toStream ++ [term]) :=
  C2_producer_sentinel_consumer_terminates emptyStore "default_user_session"
    "list all projects"
    [CallbackEvent.thought "execute_sql" "SELECT 1" "try it"]
    (.error "LLM quota exceeded")

/-- Claim C5: with no per-request callback, a second sequential
`get_or_create_agent` for the same tenant returns the agent cached by the
first call — same handle, same discovered tool set — leaves the cache
unchanged, and does not re-run discovery (the first call ran it). -/
theorem C5_second_call_uses_cache {R C : Type}
    (discover : String → List (LCTool R)) (cache : AgentCache R)
    (tid url : String) (hmiss : cache tid = none) :
    (get_or_create_agent discover cache tid url
        (none : Option (List C))).2.2 = true
    ∧ (get_or_create_agent discover
        (get_or_create_agent discover cache tid url
          (none : Option (List C))).2.1 tid url
        (none : Option (List C))).1
      = (get_or_create_agent discover cache tid url
          (none : Option (List C))).1
    ∧ (get_or_create_agent discover
        (get_or_create_agent discover cache tid url
          (none : Option (List C))).2.1 tid url
        (none : Option (List C))).2.2 = false
    ∧ (get_or_create_agent discover
        (get_or_create_agent discover cache tid url
          (none : Option (List C))).2.1 tid url
        (none : Option (List C))).2.1
      = (get_or_create_agent discover cache tid url
          (none : Option (List C))).2.1
    ∧ (get_or_create_agent discover
        (get_or_create_agent discover cache tid url
          (none : Option (List C))).2.1 tid url
        (none : Option (List C))).1.tools = discover url := by
  simp [get_or_create_agent, hmiss]

/-- The discovery stub, url and call pair used to instantiate the lifecycle
claims concretely. -/
def noToolsDiscover : String → List (LCTool Unit) := fun _ => []

def urlA : String := "http://localhost:3001/mcp"

def firstCall : Agent Unit × AgentCache Unit × Bool :=
  get_or_create_agent noToolsDiscover emptyAgentCache "tenant_a" urlA
    (none : Option (List Unit))

def secondCall : Agent Unit × AgentCache Unit × Bool :=
  get_or_create_agent noToolsDiscover firstCall.2.1 "tenant_a" urlA
    (none : Option (List Unit))

/-- Concrete instantiation of C5 from an empty cache. -/
theorem C5_second_call_uses_cache_witness :
    firstCall.2.2 = true ∧ secondCall.1 = firstCall.1
      ∧ secondCall.2.2 = false ∧ secondCall.2.1 = firstCall.2.1
      ∧ secondCall.1.tools = noToolsDiscover urlA :=
  C5_second_call_uses_cache noToolsDiscover emptyAgentCache "tenant_a" urlA
    rfl

/-- Claim C6: the invocation function of a discovered handle resolves its
free-form argument string by best-effort parse with fallback — a stripped
string starting with a brace that parses yields the structured object, every
other case (a non-brace string, or a brace-prefixed string whose parse
fails) yields the query wrapping of the raw string — it is total (never
raises), and it delegates the resolved arguments to the transport call. -/
theorem C6_argument_resolution {J R : Type} (jsonLoads : String → Option J)
    (call : String → String → ToolArguments J → R) (url name s : String) :
    make_tool_func jsonLoads call url name s
        = call url name (resolveArguments jsonLoads s)
      ∧ (∀ j, s.trim.startsWith "\x7b" = true → jsonLoads s = some j →
          resolveArguments jsonLoads s = .parsed j)
      ∧ (s.trim.startsWith "\x7b" = false →
          resolveArguments jsonLoads s = .query s)
      ∧ (jsonLoads s = none → resolveArguments jsonLoads s = .query s) := by
  refine ⟨rfl, ?_, ?_, ?_⟩
  · intro j hb hj
    simp [resolveArguments, hb, hj]
  · intro hb
    simp [resolveArguments, hb]
  · intro hj
    unfold resolveArguments
    rw [hj]
    simp


/-- Concrete instantiation of C6: a brace-prefixed string whose parse fails
falls back to the query wrapping. -/
theorem C6_argument_resolution_witness :
    resolveArguments (fun _ => (none : Option (List (String × String))))
        "\x7bnot json" = .query "\x7bnot json" :=
  (C6_argument_resolution (fun _ => (none : Option (List (String × String))))
    (fun _ _ a => a) "http://localhost:3001/mcp" "execute_sql"
    "\x7bnot json").2.2.2 rfl

/-- Claim C7: a /chat request naming a tenant outside the routing table gets
the 400 client error with an error message, no conversation is run — no tool
discovery, no agent construction, no LLM call — and the response is never an
event stream: the unknown tenant is not replaced by a default. -/
theorem C7_unknown_tenant_rejected (servers : TenantServers)
    (runConversation : String → String → String → String →
      List ChatEffect × List StreamEvent)
    (data : ChatRequest) (tid : String)
    (htid : data.tenant_id = some tid) (hunknown : servers tid = none) :
    chat servers runConversation data
        = (.clientError 400 ("Error: Unknown tenant '" ++ tid ++ "'."), [])
      ∧ ∀ evs fx, chat servers runConversation data
          ≠ (.eventStream evs, fx) := by
  have hmain : chat servers runConversation data
      = (.clientError 400 ("Error: Unknown tenant '" ++ tid ++ "'."), []) := by
    simp [chat, htid, hunknown]
  refine ⟨hmain, fun evs fx => ?_⟩
  rw [hmain]
  simp

/-- Concrete instantiation of C7 on the default routing table. -/
theorem C7_unknown_tenant_rejected_witness :
    chat defaultTenantServers (fun _ _ _ _ => ([], []))
        ⟨some "list all projects", some "tenant_z", none⟩
      = (.clientError 400 ("Error: Unknown tenant '" ++ "tenant_z" ++ "'."),
          []) :=
  (C7_unknown_tenant_rejected defaultTenantServers (fun _ _ _ _ => ([], []))
    ⟨some "list all projects", some "tenant_z", none⟩ "tenant_z"
    rfl (by decide)).1

/-- Claim C9: a `get_or_create_agent` call carrying a non-empty per-request
callbacks list for an uncached tenant does not insert the built agent: the
cache mapping after the call is the one before it, so the request-scoped
callback cannot leak into later requests. -/
theorem C9_callback_agent_not_cached {R C : Type}
    (discover : String → List (LCTool R)) (cache : AgentCache R)
    (tid url : String) (cbs : List C)
    (hne : cbs ≠ []) (hmiss : cache tid = none) :
    (get_or_create_agent discover cache tid url (some cbs)).2.1 = cache := by
  cases cbs with
  | nil => exact absurd rfl hne
  | cons c cs => simp [get_or_create_agent, hmiss]

/-- Concrete instantiation of C9: one streaming handler in the callbacks
list, empty cache before, empty cache after. -/
theorem C9_callback_agent_not_cached_witness :
    (get_or_create_agent (fun _ => ([] : List (LCTool Unit)))
        emptyAgentCache "tenant_a" "http://localhost:3001/mcp"
        (some [()])).2.1 = emptyAgentCache :=
  C9_callback_agent_not_cached (fun _ => []) emptyAgentCache "tenant_a"
    "http://localhost:3001/mcp" [()] (by decide) rfl

end RagChatbot
